import Mathlib

/-
  Verification of the configuration-lifecycle layer of the cohere-scripts GUI
  (cdi_window.py, common.py, everything.py) against its natural-language
  specification.  The Python sources are shallowly embedded: configuration
  mappings become ordered association lists of strings, the file system
  becomes a function from paths to optional contents, and the external
  modules (config_verifier, convertconfig, cohere utilities, the beamline
  and stage-script modules) appear as explicit parameters, since their code
  is not part of this repository's sources.
-/

/-- A configuration mapping as built by the GUI: parameter name to
literal-value string, in insertion order (Python dict order). -/
abbrev ConfEntries := List (String × String)

/-- A text file system: path to optional content.  `none` means absent. -/
abbrev FileSys := String → Option String

/-- Model of `os.path.join dir file` for the single-component joins used by
the embedded code. -/
def pjoin (d f : String) : String := d ++ "/" ++ f

def fsIsFile (fs : FileSys) (p : String) : Bool := (fs p).isSome

def fsWrite (fs : FileSys) (p c : String) : FileSys :=
  fun q => if q == p then some c else fs q

def fsRemove (fs : FileSys) (p : String) : FileSys :=
  fun q => if q == p then none else fs q

/-- The serialized text produced by the writing loop of
`cdi_window.write_conf` (lines 113-117): for each key in order, when the
value string is non-empty, append `key + ' = ' + value + '\n'`. -/
def confText (conf_map : ConfEntries) : String :=
  conf_map.foldl
    (fun acc kv => if kv.2.length > 0 then acc ++ kv.1 ++ " = " ++ kv.2 ++ "\n" else acc)
    ""

/-- The per-stage checkers of the external `config_verifier` module,
abstracted as predicates on the serialized file content. -/
structure Verifiers where
  ver_config : String → Bool
  ver_config_prep : String → Bool
  ver_config_data : String → Bool
  ver_config_rec : String → Bool
  ver_config_disp : String → Bool

/-- Translation of `cdi_window.write_conf` (lines 106-148): write the entries
to `dir/temp`, dispatch on the file name to a stage checker, and when it
accepts copy the temp file onto `dir/file` and remove the temp file; when it
rejects remove the temp file and return `False`.  Returns the boolean result
together with the file system after the call. -/
def write_conf (v : Verifiers) (conf_map : ConfEntries) (dir file : String)
    (fs : FileSys) : Bool × FileSys :=
  let conf_file := pjoin dir file
  let temp_file := pjoin dir "temp"
  let fs1 := if fsIsFile fs temp_file then fsRemove fs temp_file else fs
  let content := confText conf_map
  let fs2 := fsWrite fs1 temp_file content
  let accept : Bool × FileSys := (true, fsRemove (fsWrite fs2 conf_file content) temp_file)
  let reject : Bool × FileSys := (false, fsRemove fs2 temp_file)
  if file == "config" then (if v.ver_config content then accept else reject)
  else if file == "config_prep" then (if v.ver_config_prep content then accept else reject)
  else if file == "config_data" then (if v.ver_config_data content then accept else reject)
  else if file.endsWith "config_rec" then (if v.ver_config_rec content then accept else reject)
  else if file == "config_disp" then (if v.ver_config_disp content then accept else reject)
  else accept

/-- The stage-specific checker selected by the file name, in the claim's own
words: `config`, `config_prep`, `config_data`, any name ending in
`config_rec`, `config_disp`. -/
def stage_verifier (v : Verifiers) (file : String) : Option (String → Bool) :=
  if file == "config" then some v.ver_config
  else if file == "config_prep" then some v.ver_config_prep
  else if file == "config_data" then some v.ver_config_data
  else if file.endsWith "config_rec" then some v.ver_config_rec
  else if file == "config_disp" then some v.ver_config_disp
  else none

/-- The file system holding the temp file just before verification. -/
def wcPre (conf_map : ConfEntries) (dir : String) (fs : FileSys) : FileSys :=
  fsWrite (if fsIsFile fs (pjoin dir "temp") then fsRemove fs (pjoin dir "temp") else fs)
    (pjoin dir "temp") (confText conf_map)

/-- Outcome of `write_conf` when the checker accepts (or none applies). -/
def wcAccept (conf_map : ConfEntries) (dir file : String) (fs : FileSys) :
    Bool × FileSys :=
  (true, fsRemove (fsWrite (wcPre conf_map dir fs) (pjoin dir file) (confText conf_map))
    (pjoin dir "temp"))

/-- Outcome of `write_conf` when the checker rejects. -/
def wcReject (conf_map : ConfEntries) (dir : String) (fs : FileSys) :
    Bool × FileSys :=
  (false, fsRemove (wcPre conf_map dir fs) (pjoin dir "temp"))

lemma string_eq_of_data {a b : String} (h : a.data = b.data) : a = b := by
  cases a; cases b; exact congrArg String.mk h

lemma string_data_append (a b : String) : (a ++ b).data = a.data ++ b.data := rfl

lemma string_append_empty (s : String) : s ++ "" = s := by
  apply string_eq_of_data
  simp [string_data_append]

lemma string_empty_append (s : String) : "" ++ s = s := by
  apply string_eq_of_data
  simp [string_data_append]

lemma pjoin_inj {d a b : String} (h : a ≠ b) : pjoin d a ≠ pjoin d b := by
  intro he
  apply h
  have hd : (pjoin d a).data = (pjoin d b).data := congrArg String.data he
  simp only [pjoin, string_data_append] at hd
  exact string_eq_of_data (List.append_cancel_left hd)

lemma pjoin_beq_false {d a b : String} (h : a ≠ b) :
    (pjoin d a == pjoin d b) = false :=
  beq_eq_false_iff_ne.mpr (pjoin_inj h)

/-- The file name is never `temp` when a stage checker is selected. -/
lemma stage_verifier_file_ne_temp (v : Verifiers) (file : String)
    (f : String → Bool) (hf : stage_verifier v file = some f) : file ≠ "temp" := by
  intro hfile
  subst hfile
  have hnone : stage_verifier v "temp" = none := rfl
  rw [hnone] at hf
  exact Option.noConfusion hf

/-- Case analysis of `write_conf` through `stage_verifier`. -/
lemma write_conf_eq_cases (v : Verifiers) (conf_map : ConfEntries)
    (dir file : String) (fs : FileSys) :
    write_conf v conf_map dir file fs =
      (match stage_verifier v file with
       | some f =>
          if f (confText conf_map) then wcAccept conf_map dir file fs
          else wcReject conf_map dir fs
       | none => wcAccept conf_map dir file fs) := by
  simp only [write_conf, stage_verifier, wcAccept, wcReject, wcPre]
  by_cases h1 : (file == "config") = true <;>
    simp only [h1, if_true, if_false, Bool.false_eq_true]
  by_cases h2 : (file == "config_prep") = true <;>
    simp only [h2, if_true, if_false, Bool.false_eq_true]
  by_cases h3 : (file == "config_data") = true <;>
    simp only [h3, if_true, if_false, Bool.false_eq_true]
  by_cases h4 : (file.endsWith "config_rec") = true <;>
    simp only [h4, if_true, if_false, Bool.false_eq_true]
  by_cases h5 : (file == "config_disp") = true <;>
    simp only [h5, if_true, if_false, Bool.false_eq_true]

lemma wcAccept_read_conf (conf_map : ConfEntries) (dir file : String)
    (fs : FileSys) (hne : file ≠ "temp") :
    (wcAccept conf_map dir file fs).2 (pjoin dir file) = some (confText conf_map) := by
  simp [wcAccept, fsRemove, fsWrite, pjoin_beq_false hne]

lemma wcAccept_read_temp (conf_map : ConfEntries) (dir file : String)
    (fs : FileSys) :
    (wcAccept conf_map dir file fs).2 (pjoin dir "temp") = none := by
  simp [wcAccept, fsRemove]

lemma wcReject_read_temp (conf_map : ConfEntries) (dir : String) (fs : FileSys) :
    (wcReject conf_map dir fs).2 (pjoin dir "temp") = none := by
  simp [wcReject, fsRemove]

lemma wcReject_read_conf (conf_map : ConfEntries) (dir file : String)
    (fs : FileSys) (hne : file ≠ "temp") :
    (wcReject conf_map dir fs).2 (pjoin dir file) = fs (pjoin dir file) := by
  by_cases htmp : fsIsFile fs (pjoin dir "temp") = true <;>
    simp [wcReject, wcPre, fsRemove, fsWrite, pjoin_beq_false hne, htmp]

/-- Claim C1: for every configuration mapping, directory and stage file name,
`write_conf` writes the entries to a temporary file, runs the stage-specific
checker selected by the file name, and commits the temporary file onto the
target configuration file exactly when the checker accepts; on rejection it
removes the temporary file, returns `False`, and leaves the target file
unchanged. -/
theorem write_conf_verifies_before_commit
    (v : Verifiers) (conf_map : ConfEntries) (dir file : String) (fs : FileSys)
    (f : String → Bool) (hf : stage_verifier v file = some f) :
    (f (confText conf_map) = true →
      (write_conf v conf_map dir file fs).1 = true ∧
      (write_conf v conf_map dir file fs).2 (pjoin dir file) = some (confText conf_map) ∧
      (write_conf v conf_map dir file fs).2 (pjoin dir "temp") = none) ∧
    (f (confText conf_map) = false →
      (write_conf v conf_map dir file fs).1 = false ∧
      (write_conf v conf_map dir file fs).2 (pjoin dir "temp") = none ∧
      (write_conf v conf_map dir file fs).2 (pjoin dir file) = fs (pjoin dir file)) := by
  have hne : file ≠ "temp" := stage_verifier_file_ne_temp v file f hf
  rw [write_conf_eq_cases, hf]
  constructor
  · intro hacc
    simp only [hacc, if_true]
    exact ⟨rfl, wcAccept_read_conf conf_map dir file fs hne,
      wcAccept_read_temp conf_map dir file fs⟩
  · intro hrej
    simp only [hrej, Bool.false_eq_true, if_false]
    exact ⟨rfl, wcReject_read_temp conf_map dir fs,
      wcReject_read_conf conf_map dir file fs hne⟩

/-- A fixed pack of checkers used for concrete evaluations: `ver_config`
rejects everything, the other stages accept non-empty content. -/
def vWitness : Verifiers where
  ver_config := fun _ => false
  ver_config_prep := fun _ => true
  ver_config_data := fun c => c.length > 0
  ver_config_rec := fun _ => true
  ver_config_disp := fun _ => true

def fsEmpty : FileSys := fun _ => none

/-- Witness for C1 at a concrete input: `ver_config` rejects, so the write
reports failure and the target file stays absent. -/
theorem write_conf_verifies_before_commit_witness :
    (write_conf vWitness [("a", "1")] "d" "config" fsEmpty).1 = false ∧
    (write_conf vWitness [("a", "1")] "d" "config" fsEmpty).2 (pjoin "d" "config") =
      fsEmpty (pjoin "d" "config") := by
  have h := (write_conf_verifies_before_commit vWitness [("a", "1")] "d" "config" fsEmpty
    vWitness.ver_config rfl).2 rfl
  exact ⟨h.1, h.2.2⟩

lemma string_foldl_append (l : List String) (s : String) :
    l.foldl (fun r a => r ++ a) s = s ++ l.foldl (fun r a => r ++ a) "" := by
  induction l generalizing s with
  | nil => simp [string_append_empty]
  | cons a t ih =>
    simp only [List.foldl_cons]
    rw [ih (s ++ a), ih (("" : String) ++ a), string_empty_append]
    apply string_eq_of_data
    simp [string_data_append]

lemma string_join_cons (s : String) (l : List String) :
    String.join (s :: l) = s ++ String.join l := by
  simp only [String.join, List.foldl_cons, string_empty_append]
  exact string_foldl_append l s

lemma confText_aux (m : ConfEntries) (acc : String) :
    m.foldl
      (fun acc kv => if kv.2.length > 0 then acc ++ kv.1 ++ " = " ++ kv.2 ++ "\n" else acc)
      acc =
    acc ++ String.join ((m.filter (fun kv => kv.2.length > 0)).map
      (fun kv => kv.1 ++ " = " ++ kv.2 ++ "\n")) := by
  induction m generalizing acc with
  | nil => simp [String.join, string_append_empty]
  | cons kv rest ih =>
    rw [List.foldl_cons]
    by_cases h : kv.2.length > 0
    · rw [if_pos h, ih]
      have hfil : (kv :: rest).filter (fun kv => kv.2.length > 0) =
          kv :: rest.filter (fun kv => kv.2.length > 0) := by
        simp [List.filter_cons, h]
      rw [hfil, List.map_cons, string_join_cons]
      apply string_eq_of_data
      simp [string_data_append]
    · rw [if_neg h, ih]
      have hfil : (kv :: rest).filter (fun kv => kv.2.length > 0) =
          rest.filter (fun kv => kv.2.length > 0) := by
        simp [List.filter_cons, h]
      rw [hfil]

/-- Claim C3: `write_conf` serializes the mapping as, in iteration order, one
record `key = value` terminated by a newline for each key whose value string
is non-empty, and nothing for keys whose value string is empty; the accepted
target file holds exactly that text. -/
theorem write_conf_line_format (v : Verifiers) (m : ConfEntries)
    (dir file : String) (fs : FileSys) :
    confText m = String.join ((m.filter (fun kv => kv.2.length > 0)).map
      (fun kv => kv.1 ++ " = " ++ kv.2 ++ "\n")) ∧
    ((write_conf v m dir file fs).1 = true → file ≠ "temp" →
      (write_conf v m dir file fs).2 (pjoin dir file) =
        some (String.join ((m.filter (fun kv => kv.2.length > 0)).map
          (fun kv => kv.1 ++ " = " ++ kv.2 ++ "\n")))) := by
  have hjoin : confText m = String.join ((m.filter (fun kv => kv.2.length > 0)).map
      (fun kv => kv.1 ++ " = " ++ kv.2 ++ "\n")) := by
    unfold confText
    simpa [string_empty_append] using confText_aux m ""
  refine ⟨hjoin, ?_⟩
  intro hok hne
  rw [write_conf_eq_cases] at hok ⊢
  rcases hsv : stage_verifier v file with _ | f
  · rw [← hjoin]
    exact wcAccept_read_conf m dir file fs hne
  · cases hacc : f (confText m) with
    | false =>
      rw [hsv] at hok
      simp [hacc, wcReject] at hok
    | true =>
      simp only [hacc, if_true]
      rw [← hjoin]
      exact wcAccept_read_conf m dir file fs hne

/-- Witness for C3: a concrete mapping with one empty value serializes to the
two expected records, and an accepted write stores exactly that text. -/
theorem write_conf_line_format_witness :
    confText [("a", "1"), ("b", ""), ("c", "2")] =
      String.join (([("a", "1"), ("b", ""), ("c", "2")].filter
        (fun kv => kv.2.length > 0)).map (fun kv => kv.1 ++ " = " ++ kv.2 ++ "\n")) ∧
    (write_conf vWitness [("a", "1"), ("b", ""), ("c", "2")] "d" "config_data" fsEmpty).2
        (pjoin "d" "config_data") =
      some (String.join (([("a", "1"), ("b", ""), ("c", "2")].filter
        (fun kv => kv.2.length > 0)).map (fun kv => kv.1 ++ " = " ++ kv.2 ++ "\n"))) := by
  have h := write_conf_line_format vWitness [("a", "1"), ("b", ""), ("c", "2")]
    "d" "config_data" fsEmpty
  exact ⟨h.1, h.2 rfl (by decide)⟩

/-- Python `str.replace(' ', '')` as applied to the scan text in
`cdi_gui.is_exp_exists` (line 310). -/
def removeSpaces (s : String) : String :=
  String.mk (s.data.filter (fun c => c != ' '))

/-- Python `str.strip()`: drop leading and trailing whitespace. -/
def pstrip (s : String) : String :=
  String.mk (((s.data.dropWhile Char.isWhitespace).reverse.dropWhile
    Char.isWhitespace).reverse)

/-- The experiment name computed by `cdi_gui.set_experiment` (lines 502-514):
the stripped id widget text, with `_` and the raw scan widget text appended
when that text is non-empty. -/
def exp_name_set (idText scanText : String) : String :=
  let id := pstrip idText
  if scanText.length > 0 then id ++ "_" ++ scanText else id

/-- The experiment name whose directory `cdi_gui.is_exp_exists`
(lines 293-315) checks: the stripped id text, with `_` and the
space-stripped scan text appended when that is non-empty. -/
def exp_name_exists (idText scanText : String) : String :=
  let exp_id := pstrip idText
  let scan := removeSpaces scanText
  if scan != "" then exp_id ++ "_" ++ scan else exp_id

/-- Directory-existence state, for `os.path.exists` and `os.makedirs`. -/
def DirSys := String → Bool

def mkdirs (d : DirSys) (p : String) : DirSys := fun q => q == p || d q

/-- Translation of `cdi_gui.assure_experiment_dir` (lines 441-455). -/
def assure_experiment_dir (experiment_dir : String) (d : DirSys) : DirSys :=
  let d1 := if d experiment_dir then d else mkdirs d experiment_dir
  if d1 (pjoin experiment_dir "conf") then d1 else mkdirs d1 (pjoin experiment_dir "conf")

/-- The experiment directory established by `cdi_gui.set_experiment`
(line 515): the working directory joined with the experiment name. -/
def set_experiment_dir (workDir idText scanText : String) : String :=
  pjoin workDir (exp_name_set idText scanText)

/-- Translation of `cdi_gui.is_exp_exists` (lines 293-315) over the GUI
fields it reads. -/
def is_exp_exists (exp_id working_dir : Option String)
    (idText scanText : String) (d : DirSys) : Bool :=
  match exp_id, working_dir with
  | some _, some wd => d (pjoin wd (exp_name_exists idText scanText))
  | _, _ => false

lemma mkdirs_self (d : DirSys) (p : String) : mkdirs d p p = true := by
  simp [mkdirs]

lemma assure_experiment_dir_base (p : String) (d : DirSys) :
    assure_experiment_dir p d p = true := by
  unfold assure_experiment_dir
  have h1 : (if d p then d else mkdirs d p) p = true := by
    by_cases h : d p = true <;> simp [h, mkdirs]
  by_cases h2 : (if d p then d else mkdirs d p) (pjoin p "conf") = true <;>
    simp [h2, mkdirs, h1]

lemma assure_experiment_dir_conf (p : String) (d : DirSys) :
    assure_experiment_dir p d (pjoin p "conf") = true := by
  unfold assure_experiment_dir
  by_cases h2 : (if d p then d else mkdirs d p) (pjoin p "conf") = true <;>
    simp [h2, mkdirs]

lemma string_length_pos_of_ne_empty {s : String} (h : s ≠ "") : s.length > 0 := by
  cases s with
  | mk l =>
    have hl : l ≠ [] := by
      intro h0
      subst h0
      exact h rfl
    simpa [String.length] using List.length_pos.mpr hl

/-- Counterexample to C5 as stated: with the scan text `1 2`,
`set_experiment` names the experiment `exp_1 2` while `is_exp_exists`
checks the directory `exp_12`, so the two functions do not follow the same
naming convention. -/
theorem exp_naming_convention_counterexample :
    exp_name_set "exp" "1 2" ≠ exp_name_exists "exp" "1 2" := by decide

/-- Claim C5 (amended): the experiment directory is the working directory
joined with the experiment id plus `_` plus the scan text when the scan
text is non-empty (the id alone otherwise); `set_experiment` (via
`assure_experiment_dir`) makes this directory and its `conf` subdirectory
exist; and `is_exp_exists` checks the directory named by the same
convention applied to the scan text with its spaces removed, which
coincides whenever the scan text contains no space. -/
theorem experiment_naming_convention
    (workDir idText scanText : String) (d : DirSys)
    (hscan : ∀ c ∈ scanText.data, c ≠ ' ') :
    exp_name_exists idText scanText = exp_name_set idText scanText ∧
    (assure_experiment_dir (set_experiment_dir workDir idText scanText) d)
        (set_experiment_dir workDir idText scanText) = true ∧
    (assure_experiment_dir (set_experiment_dir workDir idText scanText) d)
        (pjoin (set_experiment_dir workDir idText scanText) "conf") = true ∧
    is_exp_exists (some (exp_name_set idText scanText)) (some workDir) idText scanText
        (assure_experiment_dir (set_experiment_dir workDir idText scanText) d) = true := by
  have hrm : removeSpaces scanText = scanText := by
    apply string_eq_of_data
    simp only [removeSpaces]
    exact List.filter_eq_self.mpr (fun c hc => bne_iff_ne.mpr (hscan c hc))
  have hname : exp_name_exists idText scanText = exp_name_set idText scanText := by
    unfold exp_name_exists exp_name_set
    rw [hrm]
    by_cases hempty : scanText = ""
    · subst hempty
      simp
    · rw [if_pos (bne_iff_ne.mpr hempty),
        if_pos (string_length_pos_of_ne_empty hempty)]
  refine ⟨hname, assure_experiment_dir_base _ _, assure_experiment_dir_conf _ _, ?_⟩
  simp only [is_exp_exists, hname]
  exact assure_experiment_dir_base _ _

/-- Witness for C5 at a concrete input with a space-free scan text. -/
theorem experiment_naming_convention_witness :
    exp_name_exists "exp" "12" = exp_name_set "exp" "12" ∧
    is_exp_exists (some (exp_name_set "exp" "12")) (some "w") "exp" "12"
        (assure_experiment_dir (set_experiment_dir "w" "exp" "12")
          (fun _ => false)) = true := by
  have h := experiment_naming_convention "w" "exp" "12" (fun _ => false) (by decide)
  exact ⟨h.1, h.2.2.2⟩

/-- The configuration mapping written by `cdi_gui.save_main`
(lines 458-471); `ver` stands for the current converter version returned by
the external `convertconfig.get_version`. -/
def save_main_conf_map (working_dir id : String)
    (scan beamline specfile : Option String) (ver : Nat) : ConfEntries :=
  [("working_dir", "\"" ++ working_dir ++ "\""),
   ("experiment_id", "\"" ++ id ++ "\"")] ++
  (match scan with | some s => [("scan", "\"" ++ s ++ "\"")] | none => []) ++
  (match beamline with | some b => [("beamline", "\"" ++ b ++ "\"")] | none => []) ++
  (match specfile with | some sp => [("specfile", "\"" ++ sp ++ "\"")] | none => []) ++
  [("converter_ver", toString ver)]

/-- Claim C6: every mapping produced by `save_main` carries the key
`converter_ver` bound to the current converter version. -/
theorem save_main_carries_current_version (working_dir id : String)
    (scan beamline specfile : Option String) (ver : Nat) :
    (save_main_conf_map working_dir id scan beamline specfile ver).lookup
        "converter_ver" = some (toString ver) ∧
    ("converter_ver", toString ver) ∈
      save_main_conf_map working_dir id scan beamline specfile ver := by
  cases scan <;> cases beamline <;> cases specfile <;>
    exact ⟨rfl, by simp [save_main_conf_map]⟩

/-- The keyword arguments forwarded unchanged by `everything.run_all`. -/
structure Kw where
  rec_id : Option String
  no_verify : Bool
  debug : Bool

/-- One invocation of an external stage handler, with its arguments. -/
inductive StageCall where
  | preparation (experiment_dir : String) (kw : Kw)
  | formatting (experiment_dir : String) (kw : Kw)
  | reconstruction (experiment_dir : String) (kw : Kw)
  | visualization (experiment_dir : String) (kw : Kw)

/-- Python `experiment_dir.replace(os.sep, '/')` for the single-character
platform separator `os.sep`. -/
def replaceSep (sep : Char) (s : String) : String :=
  String.mk (s.data.map (fun c => if c = sep then '/' else c))

/-- The four external stage modules called by `everything.run_all`,
abstracted as state transformers. -/
structure StageHandlers (σ : Type) where
  handle_prep : String → Kw → σ → σ
  format_data : String → Kw → σ → σ
  manage_reconstruction : String → Kw → σ → σ
  handle_visualization : String → Kw → σ → σ

/-- Translation of `everything.run_all` (lines 26-46). -/
def run_all {σ : Type} (h : StageHandlers σ) (sep : Char)
    (experiment_dir : String) (kw : Kw) (s : σ) : σ :=
  let d := replaceSep sep experiment_dir
  h.handle_visualization d kw
    (h.manage_reconstruction d kw (h.format_data d kw (h.handle_prep d kw s)))

/-- Stage handlers that record their invocations in order. -/
def recordingHandlers : StageHandlers (List StageCall) where
  handle_prep := fun d kw tr => tr ++ [StageCall.preparation d kw]
  format_data := fun d kw tr => tr ++ [StageCall.formatting d kw]
  manage_reconstruction := fun d kw tr => tr ++ [StageCall.reconstruction d kw]
  handle_visualization := fun d kw tr => tr ++ [StageCall.visualization d kw]

/-- Claim C7: `run_all` invokes exactly the four stage handlers -
preparation, data formatting, reconstruction, visualization - in that
order, each once, with the same experiment directory (its platform
separators replaced by `/`) and the same keyword arguments. -/
theorem run_all_calls_four_stages_in_order (sep : Char)
    (experiment_dir : String) (kw : Kw) :
    run_all recordingHandlers sep experiment_dir kw [] =
      [StageCall.preparation (replaceSep sep experiment_dir) kw,
       StageCall.formatting (replaceSep sep experiment_dir) kw,
       StageCall.reconstruction (replaceSep sep experiment_dir) kw,
       StageCall.visualization (replaceSep sep experiment_dir) kw] := rfl

/-- Translation of `common.get_pkg` (lines 86-123).  `darwin` models
`sys.platform == 'darwin'`; `cupy` and `torch` say whether importing the
respective GPU library succeeds. -/
def get_pkg (darwin cupy torch : Bool) (proc : String) (dev : List Int) :
    String × String :=
  if proc == "auto" then
    if darwin then ("", "np")
    else if cupy then ("", "cp")
    else if torch then ("", "torch")
    else ("", "np")
  else if proc == "cp" then
    if darwin then ("cupy is not supported by Mac, running with numpy", "np")
    else if dev == [-1] then ("when using cupy processing, define device", "np")
    else if cupy then ("", "cp")
    else ("cupy is not installed, select different processing", "np")
  else if proc == "torch" then
    if torch then ("", "torch")
    else ("pytorch is not installed, select different processing", "np")
  else if proc == "np" then ("", "np")
  else ("invalid \"processing\" value, " ++ proc ++ " is not supported", "np")

lemma string_append_ne_empty_right (x b : String) (hb : b ≠ "") : x ++ b ≠ "" := by
  intro h
  apply hb
  have hd := congrArg String.data h
  rw [string_data_append] at hd
  have hnil : b.data = [] := (List.append_eq_nil.mp hd).2
  exact string_eq_of_data (by simp [hnil])

lemma get_pkg_pkg_range (darwin cupy torch : Bool) (proc : String) (dev : List Int) :
    (get_pkg darwin cupy torch proc dev).2 = "np" ∨
    (get_pkg darwin cupy torch proc dev).2 = "cp" ∨
    (get_pkg darwin cupy torch proc dev).2 = "torch" := by
  unfold get_pkg
  split_ifs <;> simp

lemma get_pkg_cp_needs_cupy (darwin cupy torch : Bool) (proc : String) (dev : List Int) :
    (get_pkg darwin cupy torch proc dev).2 = "cp" → cupy = true := by
  unfold get_pkg
  split_ifs <;> simp_all

lemma get_pkg_torch_needs_torch (darwin cupy torch : Bool) (proc : String) (dev : List Int) :
    (get_pkg darwin cupy torch proc dev).2 = "torch" → torch = true := by
  unfold get_pkg
  split_ifs <;> simp_all

lemma get_pkg_invalid (darwin cupy torch : Bool) (proc : String) (dev : List Int)
    (h1 : proc ≠ "auto") (h2 : proc ≠ "cp") (h3 : proc ≠ "torch") (h4 : proc ≠ "np") :
    get_pkg darwin cupy torch proc dev =
      ("invalid \"processing\" value, " ++ proc ++ " is not supported", "np") := by
  unfold get_pkg
  simp [h1, h2, h3, h4]

lemma get_pkg_darwin_auto (cupy torch : Bool) (dev : List Int) :
    get_pkg true cupy torch "auto" dev = ("", "np") := by
  unfold get_pkg
  simp

lemma get_pkg_darwin_cp (cupy torch : Bool) (dev : List Int) :
    get_pkg true cupy torch "cp" dev =
      ("cupy is not supported by Mac, running with numpy", "np") := by
  unfold get_pkg
  simp

lemma get_pkg_cp_no_device (darwin cupy torch : Bool) :
    (get_pkg darwin cupy torch "cp" [-1]).1 ≠ "" ∧
    (get_pkg darwin cupy torch "cp" [-1]).2 = "np" := by
  unfold get_pkg
  cases darwin <;> simp

/-- Claim C9: `get_pkg` is total and defaults to numpy - the package is
`np` unless the requested GPU library import succeeds; an unsupported
`proc` value yields a non-empty error naming the value together with `np`;
on macOS `auto` yields `('', 'np')` independently of the GPU libraries
while `cp` yields a non-empty error with `np`; and `cp` with device `[-1]`
also yields a non-empty error with `np`. -/
theorem get_pkg_total_defaults_numpy (darwin cupy torch : Bool)
    (proc : String) (dev : List Int) :
    ((get_pkg darwin cupy torch proc dev).2 = "np" ∨
     (get_pkg darwin cupy torch proc dev).2 = "cp" ∨
     (get_pkg darwin cupy torch proc dev).2 = "torch") ∧
    ((get_pkg darwin cupy torch proc dev).2 = "cp" → cupy = true) ∧
    ((get_pkg darwin cupy torch proc dev).2 = "torch" → torch = true) ∧
    (proc ≠ "auto" → proc ≠ "cp" → proc ≠ "torch" → proc ≠ "np" →
      get_pkg darwin cupy torch proc dev =
        ("invalid \"processing\" value, " ++ proc ++ " is not supported", "np") ∧
      (get_pkg darwin cupy torch proc dev).1 ≠ "") ∧
    (darwin = true → proc = "auto" →
      get_pkg darwin cupy torch proc dev = ("", "np") ∧
      get_pkg darwin cupy torch proc dev = get_pkg darwin false false proc dev) ∧
    (darwin = true → proc = "cp" →
      (get_pkg darwin cupy torch proc dev).1 ≠ "" ∧
      (get_pkg darwin cupy torch proc dev).2 = "np") ∧
    (dev = [-1] → proc = "cp" →
      (get_pkg darwin cupy torch proc dev).1 ≠ "" ∧
      (get_pkg darwin cupy torch proc dev).2 = "np") := by
  refine ⟨get_pkg_pkg_range darwin cupy torch proc dev,
    get_pkg_cp_needs_cupy darwin cupy torch proc dev,
    get_pkg_torch_needs_torch darwin cupy torch proc dev,
    ?_, ?_, ?_, ?_⟩
  · intro h1 h2 h3 h4
    have he := get_pkg_invalid darwin cupy torch proc dev h1 h2 h3 h4
    refine ⟨he, ?_⟩
    rw [he]
    exact string_append_ne_empty_right _ _ (by decide)
  · intro hd hp
    subst hd hp
    exact ⟨get_pkg_darwin_auto cupy torch dev,
      (get_pkg_darwin_auto cupy torch dev).trans
        (get_pkg_darwin_auto false false dev).symm⟩
  · intro hd hp
    subst hd hp
    rw [get_pkg_darwin_cp cupy torch dev]
    exact ⟨by decide, rfl⟩
  · intro hd hp
    subst hd hp
    exact get_pkg_cp_no_device darwin cupy torch

/-- Witness for C9: concrete evaluations on macOS, for an unsupported
value, and for the undefined-device case. -/
theorem get_pkg_total_defaults_numpy_witness :
    (get_pkg true true true "auto" [0] = ("", "np")) ∧
    ((get_pkg true true true "cp" [0]).1 ≠ "" ∧
     (get_pkg true true true "cp" [0]).2 = "np") ∧
    (get_pkg false true true "xyz" [0] =
      ("invalid \"processing\" value, " ++ "xyz" ++ " is not supported", "np")) ∧
    ((get_pkg false true true "cp" [-1]).1 ≠ "" ∧
     (get_pkg false true true "cp" [-1]).2 = "np") := by
  refine ⟨((get_pkg_total_defaults_numpy true true true "auto" [0]).2.2.2.2.1
      rfl rfl).1, ?_, ?_, ?_⟩
  · exact (get_pkg_total_defaults_numpy true true true "cp" [0]).2.2.2.2.2.1 rfl rfl
  · exact ((get_pkg_total_defaults_numpy false true true "xyz" [0]).2.2.2.1
      (by decide) (by decide) (by decide) (by decide)).1
  · exact (get_pkg_total_defaults_numpy false true true "cp" [-1]).2.2.2.2.2.2
      rfl rfl

/-- A parsed configuration file at the granularity the claims need: the
typed `converter_ver` entry, the optional `beamline` entry, and an opaque
payload standing for the remaining entries (`ut.read_config` is external to
this repository). -/
structure ConfData where
  converter_ver : Option Nat
  beamline : Option String
  payload : String
deriving DecidableEq

/-- The environment `common.get_config_maps` runs in: `os.path.isfile`, the
parsed content `ut.read_config` returns before and after `conv.convert`
rewrote the conf directory, `ut.verify`, the importable beamline verifier
modules, and the current converter version.  Modelled from the spec:
`convertconfig.get_version` (not under src) is taken to be a total current
version number, per the spec's version-gated converter. -/
structure CWorld where
  isfile : String → Bool
  read : String → ConfData
  readAfterConvert : String → ConfData
  verify : String → ConfData → String
  beamImport : String → Option (String → ConfData → String)
  version : Nat

/-- The conversion gate of common.py line 44: `converter_ver` missing, or
the current version greater than the stored one. -/
def conv_trigger (stored : Option Nat) (ver : Nat) : Bool :=
  match stored with
  | none => true
  | some s => decide (ver > s)

/-- The claim's wording of the gate: the stored version is absent or is
less than the current version. -/
def VersionStale (stored : Option Nat) (ver : Nat) : Prop :=
  stored = none ∨ ∃ s, stored = some s ∧ s < ver

lemma conv_trigger_iff (stored : Option Nat) (ver : Nat) :
    conv_trigger stored ver = true ↔ VersionStale stored ver := by
  cases stored <;> simp [conv_trigger, VersionStale]

/-- The `verifier_map` of common.py lines 61-62: the outer `none` models a
`KeyError` for a name outside the map; `some none` models an entry whose
beamline verifier module is `None`. -/
def verifier_map_lookup (w : CWorld)
    (beam_ver : Option (String → ConfData → String)) (conf : String) :
    Option (Option (String → ConfData → String)) :=
  if conf == "config_data" then some (some w.verify)
  else if conf == "config_rec" then some (some w.verify)
  else if conf == "config_instr" then some beam_ver
  else if conf == "config_prep" then some beam_ver
  else if conf == "config_disp" then some beam_ver
  else if conf == "config_mp" then some beam_ver
  else none

/-- The stage configuration file read in the loop (common.py lines 66-70):
`config_rec` gets the `_rec_id` suffix when a rec_id is given. -/
def stage_conf_file (experiment_dir : String) (rec_id : Option String)
    (conf : String) : String :=
  match rec_id with
  | some rid =>
    if conf == "config_rec" then pjoin (pjoin experiment_dir "conf") (conf ++ "_" ++ rid)
    else pjoin (pjoin experiment_dir "conf") conf
  | none => pjoin (pjoin experiment_dir "conf") conf

/-- The per-stage loop of `common.get_config_maps` (lines 65-81).  The
result is `none` when the Python code would raise: a `KeyError` on the
verifier map, or calling `.verify` on a `None` beamline module. -/
def gcm_loop (w : CWorld) (experiment_dir : String)
    (beam_ver : Option (String → ConfData → String)) (rec_id : Option String)
    (no_verify : Bool) (converted : Bool) :
    List String → List (String × ConfData) →
    Option (String × List (String × ConfData) × Option Bool)
  | [], maps => some ("", maps, some converted)
  | conf :: rest, maps =>
    let conf_file := stage_conf_file experiment_dir rec_id conf
    if w.isfile conf_file then
      let config_map := w.read conf_file
      match verifier_map_lookup w beam_ver conf with
      | none => none
      | some none => none
      | some (some vf) =>
        let msg := vf conf config_map
        if 0 < msg.length then
          if no_verify then
            gcm_loop w experiment_dir beam_ver rec_id no_verify converted rest
              (maps ++ [(conf, config_map)])
          else some (msg, maps, none)
        else
          gcm_loop w experiment_dir beam_ver rec_id no_verify converted rest
            (maps ++ [(conf, config_map)])
    else gcm_loop w experiment_dir beam_ver rec_id no_verify converted rest maps

/-- `common.get_config_maps` after the main-config verification gate:
conversion when the stored version is stale, the `config_instr` beamline
import, and the per-stage loop (lines 41-83). -/
def gcm_rest (w : CWorld) (experiment_dir : String) (configs : List String)
    (rec_id : Option String) (no_verify : Bool) (main_config_map : ConfData) :
    Option (String × List (String × ConfData) × Option Bool) :=
  let needs := conv_trigger main_config_map.converter_ver w.version
  let main2 :=
    if needs then w.readAfterConvert (pjoin (pjoin experiment_dir "conf") "config")
    else main_config_map
  let maps := [("config", main2)]
  if configs.contains "config_instr" then
    match main2.beamline with
    | none => some ("cannot import beamlines.None module.", maps, none)
    | some bl =>
      match w.beamImport bl with
      | none => none
      | some bv => gcm_loop w experiment_dir (some bv) rec_id no_verify needs configs maps
  else gcm_loop w experiment_dir none rec_id no_verify needs configs maps

/-- Translation of `common.get_config_maps` (lines 27-83). -/
def get_config_maps (w : CWorld) (experiment_dir : String) (configs : List String)
    (rec_id : Option String) (no_verify : Bool) :
    Option (String × List (String × ConfData) × Option Bool) :=
  let main_conf := pjoin (pjoin experiment_dir "conf") "config"
  if w.isfile main_conf then
    let m0 := w.read main_conf
    if 0 < (w.verify "config" m0).length then
      if no_verify then gcm_rest w experiment_dir configs rec_id no_verify m0
      else some (w.verify "config" m0, [], none)
    else gcm_rest w experiment_dir configs rec_id no_verify m0
  else some ("no main config", [], none)

/-- The conversion decision of `cdi_gui.load_main` (lines 404-412): when
the stored `converter_ver` is absent or older than the current version, the
converted configuration (obtained through the external `conv.get_conf_dict`
and `ut.get_conf`) replaces the one read from disk, and `need_convert` is
reported accordingly. -/
def load_main_conv (orig convertedConf : ConfData) (ver : Nat) : ConfData × Bool :=
  match orig.converter_ver with
  | none => (convertedConf, true)
  | some stored => if stored < ver then (convertedConf, true) else (orig, false)

lemma string_ne_empty_of_length_pos {s : String} (h : 0 < s.length) : s ≠ "" := by
  intro he
  subst he
  exact Nat.lt_irrefl 0 h

lemma list_lookup_append_right_ne {β : Type} (maps : List (String × β))
    (conf k : String) (cm : β) (h : conf ≠ k) :
    (maps ++ [(conf, cm)]).lookup k = maps.lookup k := by
  induction maps with
  | nil => simp [List.lookup, beq_eq_false_iff_ne.mpr (Ne.symm h)]
  | cons a t ih =>
    cases a with
    | mk ak av =>
      by_cases hk : (k == ak) = true <;> simp [List.lookup, hk, ih]

lemma verifier_map_some_ne_config (w : CWorld)
    (bv : Option (String → ConfData → String)) (conf : String)
    (x : Option (String → ConfData → String))
    (h : verifier_map_lookup w bv conf = some x) : conf ≠ "config" := by
  intro he
  subst he
  have hn : verifier_map_lookup w bv "config" = none := rfl
  rw [hn] at h
  exact Option.noConfusion h

lemma gcm_loop_config_lookup (w : CWorld) (experiment_dir : String)
    (bv : Option (String → ConfData → String)) (rec_id : Option String)
    (no_verify converted : Bool) :
    ∀ (cfgs : List String) (maps maps' : List (String × ConfData))
      (msg : String) (c : Option Bool),
      gcm_loop w experiment_dir bv rec_id no_verify converted cfgs maps =
        some (msg, maps', c) →
      maps'.lookup "config" = maps.lookup "config" := by
  intro cfgs
  induction cfgs with
  | nil =>
    intro maps maps' msg c h
    simp only [gcm_loop, Option.some.injEq, Prod.mk.injEq] at h
    rw [← h.2.1]
  | cons conf rest ih =>
    intro maps maps' msg c h
    simp only [gcm_loop] at h
    split at h
    · split at h
      · exact Option.noConfusion h
      · exact Option.noConfusion h
      · rename_i x vf hvl
        split at h
        · split at h
          · rw [ih _ _ _ _ h,
              list_lookup_append_right_ne _ _ _ _ (verifier_map_some_ne_config w bv conf _ hvl)]
          · simp only [Option.some.injEq, Prod.mk.injEq] at h
            rw [← h.2.1]
        · rw [ih _ _ _ _ h,
            list_lookup_append_right_ne _ _ _ _ (verifier_map_some_ne_config w bv conf _ hvl)]
    · exact ih _ _ _ _ h

lemma gcm_loop_success (w : CWorld) (experiment_dir : String)
    (bv : Option (String → ConfData → String)) (rec_id : Option String)
    (no_verify converted : Bool) :
    ∀ (cfgs : List String) (maps maps' : List (String × ConfData))
      (c : Option Bool),
      gcm_loop w experiment_dir bv rec_id no_verify converted cfgs maps =
        some ("", maps', c) →
      c = some converted := by
  intro cfgs
  induction cfgs with
  | nil =>
    intro maps maps' c h
    simp only [gcm_loop, Option.some.injEq, Prod.mk.injEq] at h
    rw [← h.2.2]
  | cons conf rest ih =>
    intro maps maps' c h
    simp only [gcm_loop] at h
    split at h
    · split at h
      · exact Option.noConfusion h
      · exact Option.noConfusion h
      · rename_i x vf hvl
        split at h
        · rename_i hlen
          split at h
          · exact ih _ _ _ h
          · simp only [Option.some.injEq, Prod.mk.injEq] at h
            exact absurd h.1 (string_ne_empty_of_length_pos hlen)
        · exact ih _ _ _ h
    · exact ih _ _ _ h

lemma gcm_rest_success (w : CWorld) (experiment_dir : String)
    (configs : List String) (rec_id : Option String) (no_verify : Bool)
    (m0 : ConfData) (maps : List (String × ConfData)) (c : Option Bool)
    (h : gcm_rest w experiment_dir configs rec_id no_verify m0 =
      some ("", maps, c)) :
    c = some (conv_trigger m0.converter_ver w.version) := by
  simp only [gcm_rest] at h
  split at h
  · split at h
    · simp only [Option.some.injEq, Prod.mk.injEq] at h
      exact absurd h.1 (by decide)
    · split at h
      · exact Option.noConfusion h
      · exact gcm_loop_success _ _ _ _ _ _ _ _ _ _ h
  · exact gcm_loop_success _ _ _ _ _ _ _ _ _ _ h

lemma gcm_rest_config_lookup (w : CWorld) (experiment_dir : String)
    (configs : List String) (rec_id : Option String) (no_verify : Bool)
    (m0 : ConfData) (msg : String) (maps : List (String × ConfData))
    (c : Option Bool)
    (h : gcm_rest w experiment_dir configs rec_id no_verify m0 =
      some (msg, maps, c)) :
    maps.lookup "config" =
      some (if conv_trigger m0.converter_ver w.version
            then w.readAfterConvert (pjoin (pjoin experiment_dir "conf") "config")
            else m0) := by
  simp only [gcm_rest] at h
  split at h
  · split at h
    · simp only [Option.some.injEq, Prod.mk.injEq] at h
      rw [← h.2.1]
      simp [List.lookup]
    · split at h
      · exact Option.noConfusion h
      · rw [gcm_loop_config_lookup _ _ _ _ _ _ _ _ _ _ _ h]
        simp [List.lookup]
  · rw [gcm_loop_config_lookup _ _ _ _ _ _ _ _ _ _ _ h]
    simp [List.lookup]

/-- Claim C2: configuration conversion is triggered exactly when the stored
converter version is absent or older than the current one.
`get_config_maps` reports `converted = true` on success if and only if
`converter_ver` is missing from the main config or less than the current
version, and the `config` entry of the returned maps is the re-read
converted configuration exactly when that gate fires; `load_main` likewise
replaces the configuration with the converted one and returns
`need_convert = true` under the same condition. -/
theorem conversion_triggered_iff_version_stale
    (w : CWorld) (experiment_dir : String) (configs : List String)
    (rec_id : Option String) (no_verify : Bool)
    (orig convertedConf : ConfData) (ver : Nat) :
    (∀ maps c,
      get_config_maps w experiment_dir configs rec_id no_verify = some ("", maps, c) →
      (c = some true ↔
        VersionStale (w.read (pjoin (pjoin experiment_dir "conf") "config")).converter_ver
          w.version)) ∧
    (∀ maps c,
      get_config_maps w experiment_dir configs rec_id no_verify = some ("", maps, c) →
      maps.lookup "config" =
        some (if conv_trigger
                (w.read (pjoin (pjoin experiment_dir "conf") "config")).converter_ver
                w.version
              then w.readAfterConvert (pjoin (pjoin experiment_dir "conf") "config")
              else w.read (pjoin (pjoin experiment_dir "conf") "config"))) ∧
    ((load_main_conv orig convertedConf ver).2 = true ↔
      VersionStale orig.converter_ver ver) ∧
    ((load_main_conv orig convertedConf ver).2 = true →
      (load_main_conv orig convertedConf ver).1 = convertedConf) ∧
    ((load_main_conv orig convertedConf ver).2 = false →
      (load_main_conv orig convertedConf ver).1 = orig) := by
  refine ⟨?_, ?_, ?_, ?_, ?_⟩
  · intro maps c h
    simp only [get_config_maps] at h
    split at h
    · split at h
      · rename_i hlen
        split at h
        · have hc := gcm_rest_success _ _ _ _ _ _ _ _ h
          rw [hc]
          simp only [Option.some.injEq]
          exact conv_trigger_iff _ _
        · simp only [Option.some.injEq, Prod.mk.injEq] at h
          rw [h.1] at hlen
          exact absurd hlen (by decide)
      · have hc := gcm_rest_success _ _ _ _ _ _ _ _ h
        rw [hc]
        simp only [Option.some.injEq]
        exact conv_trigger_iff _ _
    · simp only [Option.some.injEq, Prod.mk.injEq] at h
      exact absurd h.1 (by decide)
  · intro maps c h
    simp only [get_config_maps] at h
    split at h
    · split at h
      · rename_i hlen
        split at h
        · exact gcm_rest_config_lookup _ _ _ _ _ _ _ _ _ h
        · simp only [Option.some.injEq, Prod.mk.injEq] at h
          rw [h.1] at hlen
          exact absurd hlen (by decide)
      · exact gcm_rest_config_lookup _ _ _ _ _ _ _ _ _ h
    · simp only [Option.some.injEq, Prod.mk.injEq] at h
      exact absurd h.1 (by decide)
  · cases hst : orig.converter_ver with
    | none => simp [load_main_conv, hst, VersionStale]
    | some s =>
      by_cases hlt : s < ver <;>
        simp [load_main_conv, hst, VersionStale, hlt]
  · cases hst : orig.converter_ver with
    | none => simp [load_main_conv, hst]
    | some s =>
      by_cases hlt : s < ver <;> simp [load_main_conv, hst, hlt]
  · cases hst : orig.converter_ver with
    | none => simp [load_main_conv, hst]
    | some s =>
      by_cases hlt : s < ver <;> simp [load_main_conv, hst, hlt]

/-- A stale main configuration: no stored converter version. -/
def dStale : ConfData := ⟨none, none, "stale"⟩

/-- A fresh stage configuration. -/
def dFresh : ConfData := ⟨some 3, some "aps", "stage"⟩

/-- The configuration produced by the converter. -/
def dConv : ConfData := ⟨some 3, none, "converted"⟩

/-- A concrete environment: the main config and `config_data` exist, the
main config is stale, and the `config_data` checker reports an error. -/
def wWitness : CWorld where
  isfile := fun p =>
    p == pjoin (pjoin "e" "conf") "config" || p == pjoin (pjoin "e" "conf") "config_data"
  read := fun p => if p == pjoin (pjoin "e" "conf") "config" then dStale else dFresh
  readAfterConvert := fun _ => dConv
  verify := fun conf _ => if conf == "config_data" then "bad data" else ""
  beamImport := fun _ => none
  version := 3

/-- Witness for C2: at the concrete stale environment, the success report
carries `converted = true`, and the missing stored version makes
`load_main` adopt the converted configuration. -/
theorem conversion_triggered_iff_version_stale_witness :
    VersionStale ((wWitness.read (pjoin (pjoin "e" "conf") "config")).converter_ver)
      wWitness.version ∧
    (load_main_conv dStale dConv 3).2 = true ∧
    (load_main_conv dStale dConv 3).1 = dConv := by
  have h := conversion_triggered_iff_version_stale wWitness "e" [] none false dStale dConv 3
  have h2 : (load_main_conv dStale dConv 3).2 = true :=
    h.2.2.1.mpr (Or.inl rfl)
  exact ⟨(h.1 [("config", dConv)] (some true) rfl).mp rfl, h2, h.2.2.2.1 h2⟩

lemma gcm_loop_failing (w : CWorld) (experiment_dir : String)
    (bv : Option (String → ConfData → String)) (rec_id : Option String)
    (converted : Bool) (conf : String) (vf : String → ConfData → String)
    (hvl : verifier_map_lookup w bv conf = some (some vf))
    (hfile : w.isfile (stage_conf_file experiment_dir rec_id conf) = true)
    (hmsg : vf conf (w.read (stage_conf_file experiment_dir rec_id conf)) ≠ "") :
    ∀ (cfgs : List String) (maps maps' : List (String × ConfData))
      (msg : String) (c : Option Bool),
      conf ∈ cfgs →
      maps.lookup conf = none →
      gcm_loop w experiment_dir bv rec_id false converted cfgs maps =
        some (msg, maps', c) →
      msg ≠ "" ∧ maps'.lookup conf = none := by
  intro cfgs
  induction cfgs with
  | nil =>
    intro maps maps' msg c hmem
    exact absurd hmem (List.not_mem_nil _)
  | cons head rest ih =>
    intro maps maps' msg c hmem hacc h
    simp only [gcm_loop] at h
    by_cases hhead : head = conf
    · subst hhead
      rw [if_pos hfile, hvl] at h
      have hlen := string_length_pos_of_ne_empty hmsg
      simp only [Bool.false_eq_true, if_false] at h
      rw [if_pos hlen] at h
      simp only [Option.some.injEq, Prod.mk.injEq] at h
      refine ⟨?_, ?_⟩
      · rw [← h.1]
        exact hmsg
      · rw [← h.2.1]
        exact hacc
    · have hmem' : conf ∈ rest := by
        rcases List.mem_cons.mp hmem with he | hr
        · exact absurd he.symm hhead
        · exact hr
      split at h
      · split at h
        · exact Option.noConfusion h
        · exact Option.noConfusion h
        · rename_i x vfh hvlh
          split at h
          · rename_i hlenh
            simp only [Bool.false_eq_true, if_false] at h
            simp only [Option.some.injEq, Prod.mk.injEq] at h
            refine ⟨?_, ?_⟩
            · rw [← h.1]
              exact string_ne_empty_of_length_pos hlenh
            · rw [← h.2.1]
              exact hacc
          · refine ih _ _ _ _ hmem' ?_ h
            rw [list_lookup_append_right_ne _ _ _ _ hhead]
            exact hacc
      · exact ih _ _ _ _ hmem' hacc h

lemma gcm_rest_failing (w : CWorld) (experiment_dir : String)
    (configs : List String) (rec_id : Option String) (m0 : ConfData)
    (conf : String) (vf : String → ConfData → String)
    (hvl : ∀ bv, verifier_map_lookup w bv conf = some (some vf))
    (hfile : w.isfile (stage_conf_file experiment_dir rec_id conf) = true)
    (hmsg : vf conf (w.read (stage_conf_file experiment_dir rec_id conf)) ≠ "")
    (hmem : conf ∈ configs) :
    ∀ (msg : String) (maps : List (String × ConfData)) (c : Option Bool),
      gcm_rest w experiment_dir configs rec_id false m0 = some (msg, maps, c) →
      msg ≠ "" ∧ maps.lookup conf = none := by
  intro msg maps c h
  have hnc : conf ≠ "config" := verifier_map_some_ne_config w none conf _ (hvl none)
  have hacc : ∀ x : ConfData, ([("config", x)] : List (String × ConfData)).lookup conf = none := by
    intro x
    simp [List.lookup, beq_eq_false_iff_ne.mpr hnc]
  simp only [gcm_rest] at h
  split at h
  · split at h
    · simp only [Option.some.injEq, Prod.mk.injEq] at h
      refine ⟨?_, ?_⟩
      · rw [← h.1]
        decide
      · rw [← h.2.1]
        exact hacc _
    · split at h
      · exact Option.noConfusion h
      · rename_i bvf hbv
        exact gcm_loop_failing w experiment_dir _ rec_id _ conf vf (hvl _) hfile hmsg
          configs _ maps msg c hmem (hacc _) h
  · exact gcm_loop_failing w experiment_dir none rec_id _ conf vf (hvl none) hfile hmsg
      configs _ maps msg c hmem (hacc _) h

/-- Claim C4: `get_config_maps` rejects and reports - a missing main config
yields the error `no main config` with empty maps; and a requested stage
config whose checker reports a non-empty message, with `no_verify` false,
makes the call return a non-empty error without that stage in the returned
maps. -/
theorem get_config_maps_rejects_and_reports
    (w : CWorld) (experiment_dir : String) (configs : List String)
    (rec_id : Option String) (no_verify : Bool) :
    (w.isfile (pjoin (pjoin experiment_dir "conf") "config") = false →
      get_config_maps w experiment_dir configs rec_id no_verify =
        some ("no main config", [], none)) ∧
    (∀ (conf : String) (vf : String → ConfData → String) (msg : String)
       (maps : List (String × ConfData)) (c : Option Bool),
      no_verify = false →
      conf ∈ configs →
      (∀ bv, verifier_map_lookup w bv conf = some (some vf)) →
      w.isfile (stage_conf_file experiment_dir rec_id conf) = true →
      vf conf (w.read (stage_conf_file experiment_dir rec_id conf)) ≠ "" →
      get_config_maps w experiment_dir configs rec_id no_verify =
        some (msg, maps, c) →
      msg ≠ "" ∧ maps.lookup conf = none) := by
  constructor
  · intro h
    simp [get_config_maps, h]
  · intro conf vf msg maps c hnv hmem hvl hfile hmsg hres
    subst hnv
    simp only [get_config_maps] at hres
    split at hres
    · split at hres
      · rename_i hlen
        simp only [Bool.false_eq_true, if_false] at hres
        simp only [Option.some.injEq, Prod.mk.injEq] at hres
        refine ⟨?_, ?_⟩
        · rw [← hres.1]
          exact string_ne_empty_of_length_pos hlen
        · rw [← hres.2.1]
          simp [List.lookup]
      · exact gcm_rest_failing w experiment_dir configs rec_id _ conf vf hvl hfile hmsg
          hmem msg maps c hres
    · simp only [Option.some.injEq, Prod.mk.injEq] at hres
      refine ⟨?_, ?_⟩
      · rw [← hres.1]
        decide
      · rw [← hres.2.1]
        simp [List.lookup]

/-- Witness for C4: with a present but failing `config_data`, the call
reports the checker's message and omits the stage; with no main config at
all it reports `no main config`. -/
theorem get_config_maps_rejects_and_reports_witness :
    (get_config_maps ⟨fun _ => false, wWitness.read, wWitness.readAfterConvert,
        wWitness.verify, wWitness.beamImport, 3⟩ "e" [] none false =
      some ("no main config", [], none)) ∧
    ("bad data" : String) ≠ "" ∧
    ([("config", dConv)] : List (String × ConfData)).lookup "config_data" = none := by
  refine ⟨(get_config_maps_rejects_and_reports _ "e" [] none false).1 rfl, ?_⟩
  exact (get_config_maps_rejects_and_reports wWitness "e" ["config_data"] none false).2
    "config_data" wWitness.verify "bad data" [("config", dConv)] none rfl
    (by simp) (fun bv => rfl) rfl (by decide) rfl

/-- Python `str.replace('\n', '')` applied to widget texts. -/
def stripNl (s : String) : String :=
  String.mk (s.data.filter (fun c => c != '\n'))

/-- Python quoting `'"' + s + '"'` used for string-valued parameters. -/
def quoteStr (s : String) : String := "\"" ++ s ++ "\""

/-- The GA feature panel state (class GA). -/
structure GAState where
  active : Bool
  generations : String
  metrics : String
  breed_modes : String
  removes : String
  ga_shrink_wrap_thresholds : String
  ga_shrink_wrap_gauss_sigmas : String
  lr_sigmas : String
  gen_pc_start : String

/-- GA.add_feat_conf (lines 1662-1680). -/
def gaBlock (st : GAState) : ConfEntries :=
  [("ga_generations", st.generations),
   ("ga_metrics", stripNl st.metrics),
   ("ga_breed_modes", stripNl st.breed_modes),
   ("ga_cullings", stripNl st.removes),
   ("ga_shrink_wrap_thresholds", stripNl st.ga_shrink_wrap_thresholds),
   ("ga_shrink_wrap_gauss_sigmas", stripNl st.ga_shrink_wrap_gauss_sigmas),
   ("ga_lowpass_filter_sigmas", stripNl st.lr_sigmas),
   ("ga_gen_pc_start", st.gen_pc_start)]

/-- The low-resolution feature panel state (class low_resolution). -/
structure LowResState where
  active : Bool
  res_triggers : String
  sigma_range : String
  det_range : String

/-- low_resolution.add_feat_conf (lines 1754-1767). -/
def lowResBlock (st : LowResState) : ConfEntries :=
  [("resolution_trigger", stripNl st.res_triggers),
   ("lowpass_filter_sw_sigma_range", stripNl st.sigma_range),
   ("lowpass_filter_range", stripNl st.det_range)]

/-- The shrink-wrap feature panel state (class shrink_wrap). -/
structure ShrinkWrapState where
  active : Bool
  shrink_wrap_triggers : String
  shrink_wrap_type : String
  shrink_wrap_threshold : String
  shrink_wrap_gauss_sigma : String

/-- shrink_wrap.add_feat_conf (lines 1848-1866): entries guarded on
non-empty texts. -/
def shrinkWrapBlock (st : ShrinkWrapState) : ConfEntries :=
  (if st.shrink_wrap_triggers.length > 0 then
    [("shrink_wrap_trigger", stripNl st.shrink_wrap_triggers)] else []) ++
  (if st.shrink_wrap_type.length > 0 then
    [("shrink_wrap_type", quoteStr st.shrink_wrap_type)] else []) ++
  (if st.shrink_wrap_threshold.length > 0 then
    [("shrink_wrap_threshold", st.shrink_wrap_threshold)] else []) ++
  (if st.shrink_wrap_gauss_sigma.length > 0 then
    [("shrink_wrap_gauss_sigma", st.shrink_wrap_gauss_sigma)] else [])

/-- The phase-support feature panel state (class phase_support). -/
structure PhaseSupportState where
  active : Bool
  phase_triggers : String
  phm_phase_min : String
  phm_phase_max : String

/-- phase_support.add_feat_conf (lines 1940-1953). -/
def phaseSupportBlock (st : PhaseSupportState) : ConfEntries :=
  [("phase_support_trigger", stripNl st.phase_triggers),
   ("phm_phase_min", st.phm_phase_min),
   ("phm_phase_max", st.phm_phase_max)]

/-- The pcdi feature panel state (class pcdi). -/
structure PcdiState where
  active : Bool
  pc_interval : String
  pc_type : String
  pc_iter : String
  pc_normalize : String
  pc_LUCY_kernel : String

/-- pcdi.add_feat_conf (lines 2041-2056). -/
def pcdiBlock (st : PcdiState) : ConfEntries :=
  [("pc_interval", st.pc_interval),
   ("pc_type", quoteStr st.pc_type),
   ("pc_LUCY_iterations", st.pc_iter),
   ("pc_normalize", st.pc_normalize),
   ("pc_LUCY_kernel", stripNl st.pc_LUCY_kernel)]

/-- The twin feature panel state (class twin). -/
structure TwinState where
  active : Bool
  twin_triggers : String
  twin_halves : String

/-- twin.add_feat_conf (lines 2123-2135). -/
def twinBlock (st : TwinState) : ConfEntries :=
  [("twin_trigger", stripNl st.twin_triggers),
   ("twin_halves", stripNl st.twin_halves)]

/-- The average feature panel state (class average). -/
structure AverageState where
  active : Bool
  average_triggers : String

/-- average.add_feat_conf (lines 2195-2206). -/
def averageBlock (st : AverageState) : ConfEntries :=
  [("average_trigger", stripNl st.average_triggers)]

/-- The progress feature panel state (class progress). -/
structure ProgressState where
  active : Bool
  progress_triggers : String

/-- progress.add_feat_conf (lines 2266-2277). -/
def progressBlock (st : ProgressState) : ConfEntries :=
  [("progress_trigger", stripNl st.progress_triggers)]

/-- Feature.add_config (lines 1508-1520): a feature contributes its block
exactly when its `active` checkbox is checked. -/
def featureAdd (active : Bool) (block : ConfEntries) : ConfEntries :=
  if active then block else []

/-- The reconstruction tab state read by RecTab.get_rec_config. -/
structure RecTabState where
  reconstructions : String
  device : String
  alg_seq : String
  hio_beta : String
  initial_support_area : String
  init_guess : Nat
  cont_dir : String
  AI_threshold : String
  AI_sigma : String
  AI_trained_model : String
  ga : GAState
  lowres : LowResState
  sw : ShrinkWrapState
  ph : PhaseSupportState
  pc : PcdiState
  tw : TwinState
  av : AverageState
  pr : ProgressState

/-- The non-feature part of RecTab.get_rec_config (lines 1145-1167). -/
def recBase (st : RecTabState) : ConfEntries :=
  (if st.reconstructions.length > 0 then
    [("reconstructions", st.reconstructions)] else []) ++
  (if st.device.length > 0 then [("device", stripNl st.device)] else []) ++
  (if st.alg_seq.length > 0 then
    [("algorithm_sequence", quoteStr (pstrip st.alg_seq))] else []) ++
  (if st.hio_beta.length > 0 then [("hio_beta", st.hio_beta)] else []) ++
  (if st.initial_support_area.length > 0 then
    [("initial_support_area", stripNl st.initial_support_area)] else []) ++
  (if st.init_guess == 1 then
    ("init_guess", "\"continue\"") ::
      (if (pstrip st.cont_dir).length > 0 then
        [("continue_dir", quoteStr (pstrip st.cont_dir))] else [])
   else if st.init_guess == 2 then
    ("init_guess", "\"AI_guess\"") ::
      ((if st.AI_threshold.length > 0 then [("AI_threshold", st.AI_threshold)] else []) ++
       (if st.AI_sigma.length > 0 then [("AI_sigma", st.AI_sigma)] else []) ++
       (if st.AI_trained_model.length > 0 then
         [("AI_trained_model", quoteStr st.AI_trained_model)] else []))
   else [])

/-- Translation of RecTab.get_rec_config (lines 1134-1171): the base
entries followed by each feature's contribution in `feature_dir` order. -/
def get_rec_config (st : RecTabState) : ConfEntries :=
  recBase st ++
  featureAdd st.ga.active (gaBlock st.ga) ++
  featureAdd st.lowres.active (lowResBlock st.lowres) ++
  featureAdd st.sw.active (shrinkWrapBlock st.sw) ++
  featureAdd st.ph.active (phaseSupportBlock st.ph) ++
  featureAdd st.pc.active (pcdiBlock st.pc) ++
  featureAdd st.tw.active (twinBlock st.tw) ++
  featureAdd st.av.active (averageBlock st.av) ++
  featureAdd st.pr.active (progressBlock st.pr)

def recBaseKeys : List String :=
  ["reconstructions", "device", "algorithm_sequence", "hio_beta",
   "initial_support_area", "init_guess", "continue_dir", "AI_threshold",
   "AI_sigma", "AI_trained_model"]

def gaKeys : List String :=
  ["ga_generations", "ga_metrics", "ga_breed_modes", "ga_cullings",
   "ga_shrink_wrap_thresholds", "ga_shrink_wrap_gauss_sigmas",
   "ga_lowpass_filter_sigmas", "ga_gen_pc_start"]

def lowResKeys : List String :=
  ["resolution_trigger", "lowpass_filter_sw_sigma_range", "lowpass_filter_range"]

def shrinkWrapKeys : List String :=
  ["shrink_wrap_trigger", "shrink_wrap_type", "shrink_wrap_threshold",
   "shrink_wrap_gauss_sigma"]

def phaseSupportKeys : List String :=
  ["phase_support_trigger", "phm_phase_min", "phm_phase_max"]

def pcdiKeys : List String :=
  ["pc_interval", "pc_type", "pc_LUCY_iterations", "pc_normalize", "pc_LUCY_kernel"]

def twinKeys : List String := ["twin_trigger", "twin_halves"]

def averageKeys : List String := ["average_trigger"]

def progressKeys : List String := ["progress_trigger"]

lemma mem_ite_nil_imp {α : Type} {c : Prop} [Decidable c] {l : List α} {p : α}
    (h : p ∈ (if c then l else [])) : p ∈ l := by
  split at h
  · exact h
  · exact absurd h (List.not_mem_nil p)

lemma featureAdd_cases {a : Bool} {b : ConfEntries} {p : String × String}
    (h : p ∈ featureAdd a b) : a = true ∧ p ∈ b := by
  unfold featureAdd at h
  split at h
  · exact ⟨by assumption, h⟩
  · exact absurd h (List.not_mem_nil p)

lemma recBase_keys (st : RecTabState) : ∀ p ∈ recBase st, p.1 ∈ recBaseKeys := by
  intro p hp
  simp only [recBase, List.mem_append] at hp
  rcases hp with ((((h | h) | h) | h) | h) | h
  · have h' := mem_ite_nil_imp h
    simp only [List.mem_singleton] at h'
    subst h'
    simp [recBaseKeys]
  · have h' := mem_ite_nil_imp h
    simp only [List.mem_singleton] at h'
    subst h'
    simp [recBaseKeys]
  · have h' := mem_ite_nil_imp h
    simp only [List.mem_singleton] at h'
    subst h'
    simp [recBaseKeys]
  · have h' := mem_ite_nil_imp h
    simp only [List.mem_singleton] at h'
    subst h'
    simp [recBaseKeys]
  · have h' := mem_ite_nil_imp h
    simp only [List.mem_singleton] at h'
    subst h'
    simp [recBaseKeys]
  · split at h
    · simp only [List.mem_cons] at h
      rcases h with rfl | h
      · simp [recBaseKeys]
      · have h' := mem_ite_nil_imp h
        simp only [List.mem_singleton] at h'
        subst h'
        simp [recBaseKeys]
    · split at h
      · simp only [List.mem_cons] at h
        rcases h with rfl | h
        · simp [recBaseKeys]
        · simp only [List.mem_append] at h
          rcases h with (h | h) | h <;>
            (have h' := mem_ite_nil_imp h
             simp only [List.mem_singleton] at h'
             subst h'
             simp [recBaseKeys])
      · exact absurd h (List.not_mem_nil p)

lemma gaBlock_keys (st : GAState) : ∀ p ∈ gaBlock st, p.1 ∈ gaKeys := by
  intro p hp
  simp only [gaBlock, List.mem_cons, List.not_mem_nil, or_false] at hp
  rcases hp with rfl | rfl | rfl | rfl | rfl | rfl | rfl | rfl <;> simp [gaKeys]

lemma lowResBlock_keys (st : LowResState) : ∀ p ∈ lowResBlock st, p.1 ∈ lowResKeys := by
  intro p hp
  simp only [lowResBlock, List.mem_cons, List.not_mem_nil, or_false] at hp
  rcases hp with rfl | rfl | rfl <;> simp [lowResKeys]

lemma shrinkWrapBlock_keys (st : ShrinkWrapState) :
    ∀ p ∈ shrinkWrapBlock st, p.1 ∈ shrinkWrapKeys := by
  intro p hp
  simp only [shrinkWrapBlock, List.mem_append] at hp
  rcases hp with ((h | h) | h) | h <;>
    (have h' := mem_ite_nil_imp h
     simp only [List.mem_singleton] at h'
     subst h'
     simp [shrinkWrapKeys])

lemma phaseSupportBlock_keys (st : PhaseSupportState) :
    ∀ p ∈ phaseSupportBlock st, p.1 ∈ phaseSupportKeys := by
  intro p hp
  simp only [phaseSupportBlock, List.mem_cons, List.not_mem_nil, or_false] at hp
  rcases hp with rfl | rfl | rfl <;> simp [phaseSupportKeys]

lemma pcdiBlock_keys (st : PcdiState) : ∀ p ∈ pcdiBlock st, p.1 ∈ pcdiKeys := by
  intro p hp
  simp only [pcdiBlock, List.mem_cons, List.not_mem_nil, or_false] at hp
  rcases hp with rfl | rfl | rfl | rfl | rfl <;> simp [pcdiKeys]

lemma twinBlock_keys (st : TwinState) : ∀ p ∈ twinBlock st, p.1 ∈ twinKeys := by
  intro p hp
  simp only [twinBlock, List.mem_cons, List.not_mem_nil, or_false] at hp
  rcases hp with rfl | rfl <;> simp [twinKeys]

lemma averageBlock_keys (st : AverageState) : ∀ p ∈ averageBlock st, p.1 ∈ averageKeys := by
  intro p hp
  simp only [averageBlock, List.mem_cons, List.not_mem_nil, or_false] at hp
  subst hp
  simp [averageKeys]

lemma progressBlock_keys (st : ProgressState) :
    ∀ p ∈ progressBlock st, p.1 ∈ progressKeys := by
  intro p hp
  simp only [progressBlock, List.mem_cons, List.not_mem_nil, or_false] at hp
  subst hp
  simp [progressKeys]

lemma list_lookup_eq_none {β : Type} (m : List (String × β)) (k : String)
    (h : ∀ p ∈ m, p.1 ≠ k) : m.lookup k = none := by
  induction m with
  | nil => rfl
  | cons a t ih =>
    cases a with
    | mk a1 a2 =>
      have ha : (k == a1) = false :=
        beq_eq_false_iff_ne.mpr
          (fun he => (h (a1, a2) (List.mem_cons_self _ _)) he.symm)
      simp only [List.lookup, ha]
      exact ih (fun p hp => h p (List.mem_cons_of_mem _ hp))

lemma get_rec_config_lookup_none (st : RecTabState) (k : String)
    (hbase : k ∉ recBaseKeys)
    (hga : st.ga.active = true → k ∉ gaKeys)
    (hlr : st.lowres.active = true → k ∉ lowResKeys)
    (hsw : st.sw.active = true → k ∉ shrinkWrapKeys)
    (hph : st.ph.active = true → k ∉ phaseSupportKeys)
    (hpc : st.pc.active = true → k ∉ pcdiKeys)
    (htw : st.tw.active = true → k ∉ twinKeys)
    (hav : st.av.active = true → k ∉ averageKeys)
    (hpr : st.pr.active = true → k ∉ progressKeys) :
    (get_rec_config st).lookup k = none := by
  apply list_lookup_eq_none
  intro p hp he
  simp only [get_rec_config, List.mem_append] at hp
  rcases hp with ((((((((hb | h) | h) | h) | h) | h) | h) | h) | h)
  · exact hbase (he ▸ recBase_keys st p hb)
  · obtain ⟨ha, hpb⟩ := featureAdd_cases h
    exact hga ha (he ▸ gaBlock_keys _ p hpb)
  · obtain ⟨ha, hpb⟩ := featureAdd_cases h
    exact hlr ha (he ▸ lowResBlock_keys _ p hpb)
  · obtain ⟨ha, hpb⟩ := featureAdd_cases h
    exact hsw ha (he ▸ shrinkWrapBlock_keys _ p hpb)
  · obtain ⟨ha, hpb⟩ := featureAdd_cases h
    exact hph ha (he ▸ phaseSupportBlock_keys _ p hpb)
  · obtain ⟨ha, hpb⟩ := featureAdd_cases h
    exact hpc ha (he ▸ pcdiBlock_keys _ p hpb)
  · obtain ⟨ha, hpb⟩ := featureAdd_cases h
    exact htw ha (he ▸ twinBlock_keys _ p hpb)
  · obtain ⟨ha, hpb⟩ := featureAdd_cases h
    exact hav ha (he ▸ averageBlock_keys _ p hpb)
  · obtain ⟨ha, hpb⟩ := featureAdd_cases h
    exact hpr ha (he ▸ progressBlock_keys _ p hpb)

lemma gaKeys_disjoint : ∀ x ∈ gaKeys, x ∉ recBaseKeys ∧ x ∉ lowResKeys ∧
    x ∉ shrinkWrapKeys ∧ x ∉ phaseSupportKeys ∧ x ∉ pcdiKeys ∧ x ∉ twinKeys ∧
    x ∉ averageKeys ∧ x ∉ progressKeys := by decide

lemma lowResKeys_disjoint : ∀ x ∈ lowResKeys, x ∉ recBaseKeys ∧ x ∉ gaKeys ∧
    x ∉ shrinkWrapKeys ∧ x ∉ phaseSupportKeys ∧ x ∉ pcdiKeys ∧ x ∉ twinKeys ∧
    x ∉ averageKeys ∧ x ∉ progressKeys := by decide

lemma shrinkWrapKeys_disjoint : ∀ x ∈ shrinkWrapKeys, x ∉ recBaseKeys ∧
    x ∉ gaKeys ∧ x ∉ lowResKeys ∧ x ∉ phaseSupportKeys ∧ x ∉ pcdiKeys ∧
    x ∉ twinKeys ∧ x ∉ averageKeys ∧ x ∉ progressKeys := by decide

lemma phaseSupportKeys_disjoint : ∀ x ∈ phaseSupportKeys, x ∉ recBaseKeys ∧
    x ∉ gaKeys ∧ x ∉ lowResKeys ∧ x ∉ shrinkWrapKeys ∧ x ∉ pcdiKeys ∧
    x ∉ twinKeys ∧ x ∉ averageKeys ∧ x ∉ progressKeys := by decide

lemma pcdiKeys_disjoint : ∀ x ∈ pcdiKeys, x ∉ recBaseKeys ∧ x ∉ gaKeys ∧
    x ∉ lowResKeys ∧ x ∉ shrinkWrapKeys ∧ x ∉ phaseSupportKeys ∧ x ∉ twinKeys ∧
    x ∉ averageKeys ∧ x ∉ progressKeys := by decide

lemma twinKeys_disjoint : ∀ x ∈ twinKeys, x ∉ recBaseKeys ∧ x ∉ gaKeys ∧
    x ∉ lowResKeys ∧ x ∉ shrinkWrapKeys ∧ x ∉ phaseSupportKeys ∧ x ∉ pcdiKeys ∧
    x ∉ averageKeys ∧ x ∉ progressKeys := by decide

lemma averageKeys_disjoint : ∀ x ∈ averageKeys, x ∉ recBaseKeys ∧ x ∉ gaKeys ∧
    x ∉ lowResKeys ∧ x ∉ shrinkWrapKeys ∧ x ∉ phaseSupportKeys ∧ x ∉ pcdiKeys ∧
    x ∉ twinKeys ∧ x ∉ progressKeys := by decide

lemma progressKeys_disjoint : ∀ x ∈ progressKeys, x ∉ recBaseKeys ∧ x ∉ gaKeys ∧
    x ∉ lowResKeys ∧ x ∉ shrinkWrapKeys ∧ x ∉ phaseSupportKeys ∧ x ∉ pcdiKeys ∧
    x ∉ twinKeys ∧ x ∉ averageKeys := by decide

/-- Claim C8: each reconstruction feature panel's parameter block appears in
the mapping produced by `get_rec_config` exactly when that feature's
`active` checkbox is checked: an active feature's block occurs contiguously
in the mapping, and an inactive feature contributes none of its keys. -/
theorem rec_features_toggle (st : RecTabState) :
    (∀ k ∈ gaKeys, st.ga.active = false → (get_rec_config st).lookup k = none) ∧
    (st.ga.active = true →
      ∃ pre post, get_rec_config st = pre ++ gaBlock st.ga ++ post) ∧
    (∀ k ∈ lowResKeys, st.lowres.active = false →
      (get_rec_config st).lookup k = none) ∧
    (st.lowres.active = true →
      ∃ pre post, get_rec_config st = pre ++ lowResBlock st.lowres ++ post) ∧
    (∀ k ∈ shrinkWrapKeys, st.sw.active = false →
      (get_rec_config st).lookup k = none) ∧
    (st.sw.active = true →
      ∃ pre post, get_rec_config st = pre ++ shrinkWrapBlock st.sw ++ post) ∧
    (∀ k ∈ phaseSupportKeys, st.ph.active = false →
      (get_rec_config st).lookup k = none) ∧
    (st.ph.active = true →
      ∃ pre post, get_rec_config st = pre ++ phaseSupportBlock st.ph ++ post) ∧
    (∀ k ∈ pcdiKeys, st.pc.active = false →
      (get_rec_config st).lookup k = none) ∧
    (st.pc.active = true →
      ∃ pre post, get_rec_config st = pre ++ pcdiBlock st.pc ++ post) ∧
    (∀ k ∈ twinKeys, st.tw.active = false →
      (get_rec_config st).lookup k = none) ∧
    (st.tw.active = true →
      ∃ pre post, get_rec_config st = pre ++ twinBlock st.tw ++ post) ∧
    (∀ k ∈ averageKeys, st.av.active = false →
      (get_rec_config st).lookup k = none) ∧
    (st.av.active = true →
      ∃ pre post, get_rec_config st = pre ++ averageBlock st.av ++ post) ∧
    (∀ k ∈ progressKeys, st.pr.active = false →
      (get_rec_config st).lookup k = none) ∧
    (st.pr.active = true →
      ∃ pre post, get_rec_config st = pre ++ progressBlock st.pr ++ post) := by
  refine ⟨?_, ?_, ?_, ?_, ?_, ?_, ?_, ?_, ?_, ?_, ?_, ?_, ?_, ?_, ?_, ?_⟩
  · intro k hk ha
    have hd := gaKeys_disjoint k hk
    exact get_rec_config_lookup_none st k hd.1
      (fun hact => absurd (ha.symm.trans hact) (by decide))
      (fun _ => hd.2.1) (fun _ => hd.2.2.1) (fun _ => hd.2.2.2.1)
      (fun _ => hd.2.2.2.2.1) (fun _ => hd.2.2.2.2.2.1)
      (fun _ => hd.2.2.2.2.2.2.1) (fun _ => hd.2.2.2.2.2.2.2)
  · intro ha
    refine ⟨recBase st,
      featureAdd st.lowres.active (lowResBlock st.lowres) ++
      featureAdd st.sw.active (shrinkWrapBlock st.sw) ++
      featureAdd st.ph.active (phaseSupportBlock st.ph) ++
      featureAdd st.pc.active (pcdiBlock st.pc) ++
      featureAdd st.tw.active (twinBlock st.tw) ++
      featureAdd st.av.active (averageBlock st.av) ++
      featureAdd st.pr.active (progressBlock st.pr), ?_⟩
    simp [get_rec_config, featureAdd, ha, List.append_assoc]
  · intro k hk ha
    have hd := lowResKeys_disjoint k hk
    exact get_rec_config_lookup_none st k hd.1 (fun _ => hd.2.1)
      (fun hact => absurd (ha.symm.trans hact) (by decide))
      (fun _ => hd.2.2.1) (fun _ => hd.2.2.2.1) (fun _ => hd.2.2.2.2.1)
      (fun _ => hd.2.2.2.2.2.1) (fun _ => hd.2.2.2.2.2.2.1)
      (fun _ => hd.2.2.2.2.2.2.2)
  · intro ha
    refine ⟨recBase st ++ featureAdd st.ga.active (gaBlock st.ga),
      featureAdd st.sw.active (shrinkWrapBlock st.sw) ++
      featureAdd st.ph.active (phaseSupportBlock st.ph) ++
      featureAdd st.pc.active (pcdiBlock st.pc) ++
      featureAdd st.tw.active (twinBlock st.tw) ++
      featureAdd st.av.active (averageBlock st.av) ++
      featureAdd st.pr.active (progressBlock st.pr), ?_⟩
    simp [get_rec_config, featureAdd, ha, List.append_assoc]
  · intro k hk ha
    have hd := shrinkWrapKeys_disjoint k hk
    exact get_rec_config_lookup_none st k hd.1 (fun _ => hd.2.1)
      (fun _ => hd.2.2.1)
      (fun hact => absurd (ha.symm.trans hact) (by decide))
      (fun _ => hd.2.2.2.1) (fun _ => hd.2.2.2.2.1)
      (fun _ => hd.2.2.2.2.2.1) (fun _ => hd.2.2.2.2.2.2.1)
      (fun _ => hd.2.2.2.2.2.2.2)
  · intro ha
    refine ⟨recBase st ++ featureAdd st.ga.active (gaBlock st.ga) ++
      featureAdd st.lowres.active (lowResBlock st.lowres),
      featureAdd st.ph.active (phaseSupportBlock st.ph) ++
      featureAdd st.pc.active (pcdiBlock st.pc) ++
      featureAdd st.tw.active (twinBlock st.tw) ++
      featureAdd st.av.active (averageBlock st.av) ++
      featureAdd st.pr.active (progressBlock st.pr), ?_⟩
    simp [get_rec_config, featureAdd, ha, List.append_assoc]
  · intro k hk ha
    have hd := phaseSupportKeys_disjoint k hk
    exact get_rec_config_lookup_none st k hd.1 (fun _ => hd.2.1)
      (fun _ => hd.2.2.1) (fun _ => hd.2.2.2.1)
      (fun hact => absurd (ha.symm.trans hact) (by decide))
      (fun _ => hd.2.2.2.2.1) (fun _ => hd.2.2.2.2.2.1)
      (fun _ => hd.2.2.2.2.2.2.1) (fun _ => hd.2.2.2.2.2.2.2)
  · intro ha
    refine ⟨recBase st ++ featureAdd st.ga.active (gaBlock st.ga) ++
      featureAdd st.lowres.active (lowResBlock st.lowres) ++
      featureAdd st.sw.active (shrinkWrapBlock st.sw),
      featureAdd st.pc.active (pcdiBlock st.pc) ++
      featureAdd st.tw.active (twinBlock st.tw) ++
      featureAdd st.av.active (averageBlock st.av) ++
      featureAdd st.pr.active (progressBlock st.pr), ?_⟩
    simp [get_rec_config, featureAdd, ha, List.append_assoc]
  · intro k hk ha
    have hd := pcdiKeys_disjoint k hk
    exact get_rec_config_lookup_none st k hd.1 (fun _ => hd.2.1)
      (fun _ => hd.2.2.1) (fun _ => hd.2.2.2.1) (fun _ => hd.2.2.2.2.1)
      (fun hact => absurd (ha.symm.trans hact) (by decide))
      (fun _ => hd.2.2.2.2.2.1) (fun _ => hd.2.2.2.2.2.2.1)
      (fun _ => hd.2.2.2.2.2.2.2)
  · intro ha
    refine ⟨recBase st ++ featureAdd st.ga.active (gaBlock st.ga) ++
      featureAdd st.lowres.active (lowResBlock st.lowres) ++
      featureAdd st.sw.active (shrinkWrapBlock st.sw) ++
      featureAdd st.ph.active (phaseSupportBlock st.ph),
      featureAdd st.tw.active (twinBlock st.tw) ++
      featureAdd st.av.active (averageBlock st.av) ++
      featureAdd st.pr.active (progressBlock st.pr), ?_⟩
    simp [get_rec_config, featureAdd, ha, List.append_assoc]
  · intro k hk ha
    have hd := twinKeys_disjoint k hk
    exact get_rec_config_lookup_none st k hd.1 (fun _ => hd.2.1)
      (fun _ => hd.2.2.1) (fun _ => hd.2.2.2.1) (fun _ => hd.2.2.2.2.1)
      (fun _ => hd.2.2.2.2.2.1)
      (fun hact => absurd (ha.symm.trans hact) (by decide))
      (fun _ => hd.2.2.2.2.2.2.1) (fun _ => hd.2.2.2.2.2.2.2)
  · intro ha
    refine ⟨recBase st ++ featureAdd st.ga.active (gaBlock st.ga) ++
      featureAdd st.lowres.active (lowResBlock st.lowres) ++
      featureAdd st.sw.active (shrinkWrapBlock st.sw) ++
      featureAdd st.ph.active (phaseSupportBlock st.ph) ++
      featureAdd st.pc.active (pcdiBlock st.pc),
      featureAdd st.av.active (averageBlock st.av) ++
      featureAdd st.pr.active (progressBlock st.pr), ?_⟩
    simp [get_rec_config, featureAdd, ha, List.append_assoc]
  · intro k hk ha
    have hd := averageKeys_disjoint k hk
    exact get_rec_config_lookup_none st k hd.1 (fun _ => hd.2.1)
      (fun _ => hd.2.2.1) (fun _ => hd.2.2.2.1) (fun _ => hd.2.2.2.2.1)
      (fun _ => hd.2.2.2.2.2.1) (fun _ => hd.2.2.2.2.2.2.1)
      (fun hact => absurd (ha.symm.trans hact) (by decide))
      (fun _ => hd.2.2.2.2.2.2.2)
  · intro ha
    refine ⟨recBase st ++ featureAdd st.ga.active (gaBlock st.ga) ++
      featureAdd st.lowres.active (lowResBlock st.lowres) ++
      featureAdd st.sw.active (shrinkWrapBlock st.sw) ++
      featureAdd st.ph.active (phaseSupportBlock st.ph) ++
      featureAdd st.pc.active (pcdiBlock st.pc) ++
      featureAdd st.tw.active (twinBlock st.tw),
      featureAdd st.pr.active (progressBlock st.pr), ?_⟩
    simp [get_rec_config, featureAdd, ha, List.append_assoc]
  · intro k hk ha
    have hd := progressKeys_disjoint k hk
    exact get_rec_config_lookup_none st k hd.1 (fun _ => hd.2.1)
      (fun _ => hd.2.2.1) (fun _ => hd.2.2.2.1) (fun _ => hd.2.2.2.2.1)
      (fun _ => hd.2.2.2.2.2.1) (fun _ => hd.2.2.2.2.2.2.1)
      (fun _ => hd.2.2.2.2.2.2.2)
      (fun hact => absurd (ha.symm.trans hact) (by decide))
  · intro ha
    refine ⟨recBase st ++ featureAdd st.ga.active (gaBlock st.ga) ++
      featureAdd st.lowres.active (lowResBlock st.lowres) ++
      featureAdd st.sw.active (shrinkWrapBlock st.sw) ++
      featureAdd st.ph.active (phaseSupportBlock st.ph) ++
      featureAdd st.pc.active (pcdiBlock st.pc) ++
      featureAdd st.tw.active (twinBlock st.tw) ++
      featureAdd st.av.active (averageBlock st.av), ([] : ConfEntries), ?_⟩
    simp [get_rec_config, featureAdd, ha, List.append_assoc]

/-- A concrete reconstruction tab state: only the twin feature is active. -/
def st0 : RecTabState :=
  ⟨"1", "(0,1)", "ER", ".9", "(0.5,0.5,0.5)", 0, "", "", "", "",
   ⟨false, "5", "", "", "", "", "", "", ""⟩,
   ⟨false, "", "", ""⟩,
   ⟨false, "(1,1)", "GAUSS", "0.1", "1.0"⟩,
   ⟨false, "", "", ""⟩,
   ⟨false, "50", "LUCY", "20", "true", "(16,16,16)"⟩,
   ⟨true, "(2)", "(0,0)"⟩,
   ⟨false, "(-50,1)"⟩,
   ⟨false, "(0,20)"⟩⟩

/-- Witness for C8: with only the twin feature active, no GA key appears in
the produced mapping while the twin block occurs contiguously. -/
theorem rec_features_toggle_witness :
    (get_rec_config st0).lookup "ga_generations" = none ∧
    ∃ pre post, get_rec_config st0 = pre ++ twinBlock st0.tw ++ post := by
  have h := rec_features_toggle st0
  exact ⟨h.1 "ga_generations" (by decide) rfl,
    h.2.2.2.2.2.2.2.2.2.2.2.1 rfl⟩

/-- Observable actions of the GUI run handlers: information dialogs and
launches of the external stage scripts. -/
inductive GuiEvent where
  | message (text : String)
  | launch_run_all
  | launch_format_data (experiment_dir : String)
  | launch_reconstruction (proc : String) (experiment_dir : String)
      (conf_id : Option String)
deriving DecidableEq

/-- Translation of `cdi_gui.run_everything` (lines 246-261): `exp_exists`
and `exp_set` are the results of the `is_exp_exists` / `is_exp_set` guard
calls and `has_tabs` says whether `self.t` is set. -/
def run_everything (exp_exists exp_set has_tabs : Bool) : List GuiEvent :=
  if !exp_exists then [GuiEvent.message "the experiment has not been created yet"]
  else if !exp_set then
    [GuiEvent.message "the experiment has changed, pres \"set experiment\" button"]
  else if has_tabs then [GuiEvent.launch_run_all]
  else []

/-- Translation of `DataTab.run_tab` (lines 874-904).  `prepFound` is the
result of the os.walk search for `prep_data.tif` under the experiment
directory and `conf_map` the mapping read from the widgets by
`get_data_config`. -/
def data_run_tab (v : Verifiers) (exp_exists exp_set : Bool)
    (intensity_text : String) (prepFound : Bool) (conf_map : ConfEntries)
    (experiment_dir : String) (fs : FileSys) : List GuiEvent × FileSys :=
  if !exp_exists then
    ([GuiEvent.message "the experiment has not been created yet"], fs)
  else if !exp_set then
    ([GuiEvent.message "the experiment has changed, pres \"set experiment\" button"], fs)
  else if intensity_text.length == 0 then
    ([GuiEvent.message "Please, enter Intensity Threshold parameter"], fs)
  else if prepFound then
    let r := write_conf v conf_map (pjoin experiment_dir "conf") "config_data" fs
    if r.1 then ([GuiEvent.launch_format_data experiment_dir], r.2)
    else ([], r.2)
  else
    ([GuiEvent.message "Please, run data preparation in previous tab to activate this function"], fs)

/-- Translation of `RecTab.run_tab` (lines 1313-1354).  `dataFound` is the
result of the os.walk search for `data.tif` or `data.npy`. -/
def rec_run_tab (v : Verifiers) (exp_exists exp_set : Bool) (dataFound : Bool)
    (old_conf_id : String) (conf_map : ConfEntries) (proc : String)
    (experiment_dir : String) (fs : FileSys) : List GuiEvent × FileSys :=
  if !exp_exists then
    ([GuiEvent.message "the experiment has not been created yet"], fs)
  else if !exp_set then
    ([GuiEvent.message "the experiment has changed, pres \"set experiment\" button"], fs)
  else if dataFound then
    let conf_file :=
      if old_conf_id == "" then "config_rec" else old_conf_id ++ "_config_rec"
    let conf_id := if old_conf_id == "" then none else some old_conf_id
    let r := write_conf v conf_map (pjoin experiment_dir "conf") conf_file fs
    if r.1 then ([GuiEvent.launch_reconstruction proc experiment_dir conf_id], r.2)
    else ([], r.2)
  else
    ([GuiEvent.message "Please, run format data in previous tab to activate this function"], fs)

/-- Claim C10: no external stage script is launched while the experiment is
unestablished.  `run_everything`, the data tab's `run_tab`, and the
reconstruction tab's `run_tab` launch their external processing only when
`is_exp_exists` and `is_exp_set` both hold (and, for the tabs, only after
the required input file is found and the configuration was written
successfully); otherwise they only display messages and leave the file
system unchanged. -/
theorem no_launch_without_experiment
    (v : Verifiers) (exp_exists exp_set has_tabs prepFound dataFound : Bool)
    (intensity_text old_conf_id proc experiment_dir : String)
    (conf_map : ConfEntries) (fs : FileSys) :
    (GuiEvent.launch_run_all ∈ run_everything exp_exists exp_set has_tabs →
      exp_exists = true ∧ exp_set = true) ∧
    (¬(exp_exists = true ∧ exp_set = true) →
      ∀ e ∈ run_everything exp_exists exp_set has_tabs,
        ∃ t, e = GuiEvent.message t) ∧
    (∀ d, GuiEvent.launch_format_data d ∈
        (data_run_tab v exp_exists exp_set intensity_text prepFound conf_map
          experiment_dir fs).1 →
      exp_exists = true ∧ exp_set = true ∧ intensity_text ≠ "" ∧
      prepFound = true ∧
      (write_conf v conf_map (pjoin experiment_dir "conf") "config_data" fs).1 = true ∧
      d = experiment_dir) ∧
    (¬(exp_exists = true ∧ exp_set = true) →
      (∀ e ∈ (data_run_tab v exp_exists exp_set intensity_text prepFound
          conf_map experiment_dir fs).1, ∃ t, e = GuiEvent.message t) ∧
      (data_run_tab v exp_exists exp_set intensity_text prepFound conf_map
        experiment_dir fs).2 = fs) ∧
    (∀ p d c, GuiEvent.launch_reconstruction p d c ∈
        (rec_run_tab v exp_exists exp_set dataFound old_conf_id conf_map proc
          experiment_dir fs).1 →
      exp_exists = true ∧ exp_set = true ∧ dataFound = true ∧
      (write_conf v conf_map (pjoin experiment_dir "conf")
        (if old_conf_id == "" then "config_rec" else old_conf_id ++ "_config_rec")
        fs).1 = true ∧
      p = proc ∧ d = experiment_dir) ∧
    (¬(exp_exists = true ∧ exp_set = true) →
      (∀ e ∈ (rec_run_tab v exp_exists exp_set dataFound old_conf_id conf_map
          proc experiment_dir fs).1, ∃ t, e = GuiEvent.message t) ∧
      (rec_run_tab v exp_exists exp_set dataFound old_conf_id conf_map proc
        experiment_dir fs).2 = fs) := by
  refine ⟨?_, ?_, ?_, ?_, ?_, ?_⟩
  · cases exp_exists with
    | false => simp [run_everything]
    | true =>
      cases exp_set with
      | false => simp [run_everything]
      | true => exact fun _ => ⟨rfl, rfl⟩
  · intro hne e he
    cases exp_exists with
    | false =>
      simp [run_everything] at he
      exact ⟨_, he⟩
    | true =>
      cases exp_set with
      | false =>
        simp [run_everything] at he
        exact ⟨_, he⟩
      | true => exact absurd ⟨rfl, rfl⟩ hne
  · intro d hmem
    cases exp_exists with
    | false => simp [data_run_tab] at hmem
    | true =>
      cases exp_set with
      | false => simp [data_run_tab] at hmem
      | true =>
        by_cases hint : (intensity_text.length == 0) = true
        · simp [data_run_tab, hint] at hmem
        · cases hpf : prepFound with
          | false => simp [data_run_tab, hint, hpf] at hmem
          | true =>
            cases hw : (write_conf v conf_map (pjoin experiment_dir "conf")
                "config_data" fs).1 with
            | false => simp [data_run_tab, hint, hpf, hw] at hmem
            | true =>
              simp [data_run_tab, hint, hpf, hw] at hmem
              refine ⟨rfl, rfl, ?_, rfl, rfl, hmem⟩
              intro he
              exact hint (by rw [he]; rfl)
  · intro hne
    cases exp_exists with
    | false =>
      constructor
      · intro e he
        simp [data_run_tab] at he
        exact ⟨_, he⟩
      · simp [data_run_tab]
    | true =>
      cases exp_set with
      | false =>
        constructor
        · intro e he
          simp [data_run_tab] at he
          exact ⟨_, he⟩
        · simp [data_run_tab]
      | true => exact absurd ⟨rfl, rfl⟩ hne
  · intro p d c hmem
    cases exp_exists with
    | false => simp [rec_run_tab] at hmem
    | true =>
      cases exp_set with
      | false => simp [rec_run_tab] at hmem
      | true =>
        cases hdf : dataFound with
        | false => simp [rec_run_tab, hdf] at hmem
        | true =>
          cases hoc : (old_conf_id == "") with
          | true =>
            cases hw : (write_conf v conf_map (pjoin experiment_dir "conf")
                "config_rec" fs).1 with
            | false => simp [rec_run_tab, hdf, hoc, hw] at hmem
            | true =>
              simp [rec_run_tab, hdf, hoc, hw] at hmem
              exact ⟨rfl, rfl, rfl, hw, hmem.1, hmem.2.1⟩
          | false =>
            cases hw : (write_conf v conf_map (pjoin experiment_dir "conf")
                (old_conf_id ++ "_config_rec") fs).1 with
            | false => simp [rec_run_tab, hdf, hoc, hw] at hmem
            | true =>
              simp [rec_run_tab, hdf, hoc, hw] at hmem
              exact ⟨rfl, rfl, rfl, hw, hmem.1, hmem.2.1⟩
  · intro hne
    cases exp_exists with
    | false =>
      constructor
      · intro e he
        simp [rec_run_tab] at he
        exact ⟨_, he⟩
      · simp [rec_run_tab]
    | true =>
      cases exp_set with
      | false =>
        constructor
        · intro e he
          simp [rec_run_tab] at he
          exact ⟨_, he⟩
        · simp [rec_run_tab]
      | true => exact absurd ⟨rfl, rfl⟩ hne

/-- Witness for C10: an unestablished experiment only produces messages and
leaves the file system untouched, while an established one with a found
input file and an accepted configuration write does launch. -/
theorem no_launch_without_experiment_witness :
    (∀ e ∈ run_everything false true true, ∃ t, e = GuiEvent.message t) ∧
    (data_run_tab vWitness false true "1" true [] "e" fsEmpty).2 = fsEmpty ∧
    (write_conf vWitness [("intensity_threshold", "2")] (pjoin "e" "conf")
      "config_data" fsEmpty).1 = true := by
  have h1 := no_launch_without_experiment vWitness false true true true true
    "1" "" "np" "e" [] fsEmpty
  have h2 := no_launch_without_experiment vWitness true true true true true
    "2" "" "np" "e" [("intensity_threshold", "2")] fsEmpty
  refine ⟨h1.2.1 (by simp), (h1.2.2.2.1 (by simp)).2, ?_⟩
  exact (h2.2.2.1 "e" (by decide)).2.2.2.2.1
